import Mathlib

/-!
# Verification of the customer support ticket flow

A shallow embedding, in Lean 4, of the query validator, the SQLite query
gateway (`SQLiteDatabaseTool._run`) and the pipeline stages of
`customer_support_ticket_flow`, together with theorems settling the
behavioural claims of the specification.

The embedding models:
* `validate_query_safety` — the pydantic field validator on the tool's
  input schema (`SQLiteQueryInput.validate_query_safety`);
* `SQLiteDatabaseTool_run` — the gateway body `SQLiteDatabaseTool._run`,
  with the file system and the SQLite backend abstracted as parameters
  (`fs : String → Bool` for file existence, `exec : String → ExecOutcome`
  for what executing a query against the store yields);
* the pipeline stages of `main.py` from the `Loaded` state onwards, with
  the store's catalog (`sqlite_master`) as a list of (table name, DDL)
  pairs and the delegated crew as an opaque function.

All strings are treated at the level of their character data; Python's
`str.strip`/`str.upper` are modelled by structurally recursive functions
on `List Char` (`trimChars`, `pyUpperChar`) matching Python's behaviour
on the ASCII range, so that concrete instances evaluate in the kernel.
-/

/-- The characters removed by Python's `str.strip()` (ASCII whitespace:
space, tab, newline, carriage return, vertical tab, form feed). -/
def isPyWhitespace (c : Char) : Bool :=
  c == ' ' || c == '\t' || c == '\n' || c == '\x0d' || c == '\x0b' || c == '\x0c'

/-- Python's `str.strip()` on character data: drop whitespace from both
ends. -/
def trimChars (l : List Char) : List Char :=
  ((l.dropWhile isPyWhitespace).reverse.dropWhile isPyWhitespace).reverse

/-- Python's `str.upper()` on a single ASCII character. -/
def pyUpperChar (c : Char) : Char :=
  if 'a' ≤ c && c ≤ 'z' then Char.ofNat (c.toNat - 32) else c

/-- The normalisation `v.strip().upper()` computed at the top of
`validate_query_safety`. -/
def queryUpperOf (v : String) : String :=
  String.mk ((trimChars v.data).map pyUpperChar)

/-- Substring containment on character lists: `needle` occurs contiguously
inside `hay`.  Models Python's `keyword in query_upper`. -/
def containsSub (hay needle : List Char) : Bool :=
  match hay with
  | [] => needle.isEmpty
  | _ :: t => needle.isPrefixOf hay || containsSub t needle

/-- Substring containment on strings, via their character data. -/
def strContains (hay needle : String) : Bool :=
  containsSub hay.data needle.data

/-- Prefix test on strings, stated on the character data so that it
composes with `String.data_append`.  Models Python's `str.startswith`
and the spec's "begins with" tests. -/
def strStartsWith (s p : String) : Bool :=
  p.data.isPrefixOf s.data

/-- The validation failures of `validate_query_safety`, named as in the
spec's error taxonomy.  In the Python source both are raised as
`ValueError`s with a descriptive message (see `errorMessage`). -/
inductive ValidationError where
  | notReadOnly
  | forbiddenKeyword (keyword : String)
deriving DecidableEq, Repr

/-- The Python `ValueError` message attached to each validation failure. -/
def errorMessage : ValidationError → String
  | .notReadOnly => "Only SELECT queries are allowed for security reasons"
  | .forbiddenKeyword k => "Query contains forbidden keyword: " ++ k

/-- The blocklist `dangerous_keywords` of
`SQLiteQueryInput.validate_query_safety`, in source order. -/
def dangerous_keywords : List String :=
  ["DROP", "DELETE", "INSERT", "UPDATE", "ALTER", "CREATE", "TRUNCATE"]

/-- `SQLiteQueryInput.validate_query_safety`: trim and upper-case the
query for comparison; reject if it does not start with `SELECT`; reject
if any blocklisted keyword occurs as a substring (first hit in source
order); otherwise return the query unchanged. -/
def validate_query_safety (v : String) : Except ValidationError String :=
  let query_upper := queryUpperOf v
  if strStartsWith query_upper "SELECT" then
    match dangerous_keywords.find? (fun k => strContains query_upper k) with
    | some keyword => .error (.forbiddenKeyword keyword)
    | none => .ok v
  else
    .error .notReadOnly

deriving instance DecidableEq for Except

/-- A result row, as the ordered `column name → rendered value` pairs that
`dict(row)` yields under `sqlite3.Row`; every value is taken after the
gateway's `str(value)` rendering (the dataset is all-text by design). -/
abbrev Row := List (String × String)

/-- What executing a query against the SQLite backend can yield, seen from
inside `SQLiteDatabaseTool._run`'s `try` block: a row list, a
`sqlite3.Error`, or any other exception. -/
inductive ExecOutcome where
  | ok (rows : List Row)
  | sqliteError (msg : String)
  | unexpectedError (msg : String)

/-- The gateway's per-field rendering: values longer than 100 characters
are cut to their first 97 characters plus `"..."`. -/
def display_value (value : String) : String :=
  if value.length > 100 then String.mk (value.data.take 97) ++ "..." else value

/-- One row block of the report: `Row i:` followed by one
`  column: value` line per field, as in the gateway's inner loop. -/
def formatRowBlock (i : Nat) (row : Row) : String :=
  "\nRow " ++ (toString i ++ (":\n" ++
    String.join (row.map fun kv =>
      "  " ++ (kv.1 ++ (": " ++ (display_value kv.2 ++ "\n"))))))

/-- The row blocks of the report, numbered from `i` upward (the source
enumerates `results[:max_display_rows]` starting at 1). -/
def formatRows : Nat → List Row → String
  | _, [] => ""
  | i, r :: rs => formatRowBlock i r ++ formatRows (i + 1) rs

/-- The header of a successful report: total row count, column names of
the first row, and the sample-size announcement. -/
def successHeader (total : Nat) (columns : List String) (maxDisplay : Nat) : String :=
  "Query executed successfully. Retrieved " ++ (toString total ++ (" row(s).\n\n" ++
    ("Columns: " ++ (String.intercalate ", " columns ++ ("\n\n" ++
      ("Sample results (showing first " ++ (toString maxDisplay ++ " rows):\n")))))))

/-- The trailing line appended when more rows exist than were sampled. -/
def moreRowsLine (remaining : Nat) : String :=
  "\n... and " ++ (toString remaining ++ " more rows.")

/-- `SQLiteDatabaseTool._run`, with the environment abstracted: `fs`
answers `Path.exists` on the resolved path and `exec` is the SQLite
backend's response to a query.  Resolution `project_root / database_path`
is string concatenation with `/`; the body mirrors the source line by
line (existence check, execute/fetchall, empty-result report, header,
20-row sample, remainder line, and the two `except` arms). -/
def SQLiteDatabaseTool_run (fs : String → Bool) (exec : String → ExecOutcome)
    (project_root query database_path : String) : String :=
  let full_db_path := project_root ++ ("/" ++ database_path)
  if fs full_db_path then
    match exec query with
    | .ok [] => "Query executed successfully but returned no results."
    | .ok (r0 :: rest) =>
        let results : List Row := r0 :: rest
        let max_display_rows := min 20 results.length
        successHeader results.length (r0.map Prod.fst) max_display_rows ++
          (formatRows 1 (results.take max_display_rows) ++
            (if results.length > max_display_rows then
              moreRowsLine (results.length - max_display_rows)
            else ""))
    | .sqliteError e => "SQLite error: " ++ e
    | .unexpectedError e => "Unexpected error executing query: " ++ e
  else
    "Error: Database file not found at " ++ full_db_path

/-- The tool's public boundary as the agent framework invokes it: the
arguments are parsed against `SQLiteQueryInput`, whose field validator
`validate_query_safety` runs first; only a query it accepts reaches
`_run`.  A validation failure surfaces as the pydantic error. -/
def toolCall (fs : String → Bool) (exec : String → ExecOutcome)
    (project_root query database_path : String) : Except ValidationError String :=
  match validate_query_safety query with
  | .error e => .error e
  | .ok q => .ok (SQLiteDatabaseTool_run fs exec project_root q database_path)

/-- The fixed table name configured in `CustomerSupportTicketFlow`. -/
def table_name : String := "customer_support_tickets"

/-- The flow's shared state (`State` in `main.py`). -/
structure FlowState where
  database_structure : String
  user_prompt : String
  answer : String
deriving DecidableEq, Repr

/-- The fatal errors of the pipeline stages modelled here.  In the source,
`inspect_database_structure` runs `fetchone()` and subscripts the result;
when no catalog row matches, `fetchone()` is `None` and the subscript
raises — the table-not-found condition of the spec's taxonomy. -/
inductive PipelineError where
  | tableNotFound
deriving DecidableEq, Repr

/-- The store's `sqlite_master` catalog restricted to `type='table'`,
modelled as `(name, sql)` pairs; the query
`SELECT sql FROM sqlite_master WHERE type='table' AND name=...` returns
the `sql` of the first matching row, if any. -/
def sqlite_master_ddl (catalog : List (String × String)) (name : String) : Option String :=
  (catalog.find? (fun t => t.1 == name)).map (fun t => t.2)

/-- Stage `inspect_database_structure`: read the DDL of `table_name` from
the catalog into the flow state, or fail fatally when the table is
absent. -/
def inspect_database_structure (catalog : List (String × String)) (s : FlowState) :
    Except PipelineError FlowState :=
  match sqlite_master_ddl catalog table_name with
  | none => .error .tableNotFound
  | some ddl => .ok { s with database_structure := ddl }

/-- Stage `answer_user_prompt`: the delegated crew (opaque here) produces
the answer from the state it is shown. -/
def answer_user_prompt (delegate : FlowState → String) (s : FlowState) : FlowState :=
  { s with answer := delegate s }

/-- The pipeline from the `Loaded` state on: `inspect` then `delegate`,
each stage running only if the previous one succeeded. -/
def pipelineFromLoaded (catalog : List (String × String)) (delegate : FlowState → String)
    (s : FlowState) : Except PipelineError FlowState :=
  match inspect_database_structure catalog s with
  | .error e => .error e
  | .ok s1 => .ok (answer_user_prompt delegate s1)

/-! ## Helper lemmas -/

/-- Splitting a prefix test across an append: `p` is a prefix of `l ++ r`
iff its first `l.length` characters are a prefix of `l` and the remainder
is a prefix of `r`. -/
theorem isPrefixOf_append_split (l : List Char) : ∀ (p r : List Char),
    p.isPrefixOf (l ++ r) =
      ((p.take l.length).isPrefixOf l && (p.drop l.length).isPrefixOf r) := by
  induction l with
  | nil => intro p r; simp [List.isPrefixOf]
  | cons b bs ih =>
    intro p r
    cases p with
    | nil => simp [List.isPrefixOf]
    | cons a as =>
      simp only [List.cons_append, List.isPrefixOf, List.length_cons,
        List.take_succ_cons, List.drop_succ_cons, List.append_eq]
      rw [ih as r, Bool.and_assoc]

/-! ## Claims about the Query Validator -/

/-- C1: any string whose trimmed upper-cased form begins with `SELECT`
and contains one of the seven forbidden keywords as a substring is
rejected by `validate_query_safety` with a `forbiddenKeyword` error, and
through the tool boundary such a string is never executed: `toolCall`
returns the same validation error for every file system and backend. -/
theorem select_with_forbidden_keyword_always_rejected (v : String)
    (hsel : strStartsWith (queryUpperOf v) "SELECT" = true)
    (hkw : ∃ k ∈ dangerous_keywords, strContains (queryUpperOf v) k = true) :
    ∃ k ∈ dangerous_keywords,
      validate_query_safety v = .error (.forbiddenKeyword k) ∧
      ∀ fs exec pr dp, toolCall fs exec pr v dp = .error (.forbiddenKeyword k) := by
  have hfind : (dangerous_keywords.find? (fun k => strContains (queryUpperOf v) k)).isSome := by
    rw [List.find?_isSome]
    obtain ⟨k0, hm, hc⟩ := hkw
    exact ⟨k0, hm, hc⟩
  obtain ⟨k, hk⟩ := Option.isSome_iff_exists.mp hfind
  have hval : validate_query_safety v = .error (.forbiddenKeyword k) := by
    simp [validate_query_safety, hsel, hk]
  exact ⟨k, List.mem_of_find?_eq_some hk, hval, fun fs exec pr dp => by
    simp [toolCall, hval]⟩

/-- Witness for C1 on the multi-statement injection
`"SELECT 1; DROP TABLE x"`. -/
theorem select_with_forbidden_keyword_always_rejected_witness :
    (strStartsWith (queryUpperOf "SELECT 1; DROP TABLE x") "SELECT" = true) ∧
    (∃ k ∈ dangerous_keywords,
      strContains (queryUpperOf "SELECT 1; DROP TABLE x") k = true) ∧
    ∃ k ∈ dangerous_keywords,
      validate_query_safety "SELECT 1; DROP TABLE x" = .error (.forbiddenKeyword k) ∧
      ∀ fs exec pr dp,
        toolCall fs exec pr "SELECT 1; DROP TABLE x" dp = .error (.forbiddenKeyword k) :=
  ⟨by decide, by decide,
    select_with_forbidden_keyword_always_rejected "SELECT 1; DROP TABLE x"
      (by decide) (by decide)⟩

/-- C2 counterexample: the claim predicts that a `SELECT` whose only
occurrence of a forbidden keyword is inside the longer identifier
`drop_rate` is accepted; the code rejects it with `forbiddenKeyword
"DROP"` because matching is substring-based, not whole-word. -/
theorem drop_rate_query_rejected :
    validate_query_safety "SELECT drop_rate FROM t" =
      .error (.forbiddenKeyword "DROP") := by decide

/-- C2 amended: on strings whose normalised form begins with `SELECT`,
`validate_query_safety` fails with a `forbiddenKeyword` error exactly
when one of the seven keywords occurs as a *substring* of the normalised
text (so keywords hidden inside longer identifiers are also rejected). -/
theorem forbiddenKeyword_iff_substring_occurs (v : String)
    (hsel : strStartsWith (queryUpperOf v) "SELECT" = true) :
    (∃ k, validate_query_safety v = .error (.forbiddenKeyword k)) ↔
      (∃ k ∈ dangerous_keywords, strContains (queryUpperOf v) k = true) := by
  constructor
  · rintro ⟨k, hk⟩
    cases hfind : dangerous_keywords.find? (fun k => strContains (queryUpperOf v) k) with
    | none =>
      simp [validate_query_safety, hsel, hfind] at hk
    | some k1 =>
      exact ⟨k1, List.mem_of_find?_eq_some hfind, List.find?_some hfind⟩
  · rintro ⟨k0, hm, hc⟩
    have hfind : (dangerous_keywords.find? (fun k => strContains (queryUpperOf v) k)).isSome :=
      List.find?_isSome.mpr ⟨k0, hm, hc⟩
    obtain ⟨k, hk⟩ := Option.isSome_iff_exists.mp hfind
    exact ⟨k, by simp [validate_query_safety, hsel, hk]⟩

/-- Witness for the amended C2 at `"SELECT drop_rate FROM t"`. -/
theorem forbiddenKeyword_iff_substring_occurs_witness :
    (strStartsWith (queryUpperOf "SELECT drop_rate FROM t") "SELECT" = true) ∧
    ((∃ k, validate_query_safety "SELECT drop_rate FROM t" = .error (.forbiddenKeyword k)) ↔
      (∃ k ∈ dangerous_keywords,
        strContains (queryUpperOf "SELECT drop_rate FROM t") k = true)) :=
  ⟨by decide, forbiddenKeyword_iff_substring_occurs "SELECT drop_rate FROM t" (by decide)⟩

/-- C5: any string whose trimmed upper-cased form does not begin with
`SELECT` is rejected by `validate_query_safety` with `notReadOnly`; the
comparison is on `queryUpperOf v`, i.e. case-insensitive and ignoring
leading/trailing whitespace. -/
theorem non_select_fails_notReadOnly (v : String)
    (h : strStartsWith (queryUpperOf v) "SELECT" = false) :
    validate_query_safety v = .error .notReadOnly := by
  simp [validate_query_safety, h]

/-- Witness for C5 at `"  delete FROM t  "`. -/
theorem non_select_fails_notReadOnly_witness :
    (strStartsWith (queryUpperOf "  delete FROM t  ") "SELECT" = false) ∧
    validate_query_safety "  delete FROM t  " = .error .notReadOnly :=
  ⟨by decide, non_select_fails_notReadOnly "  delete FROM t  " (by decide)⟩

/-- A prefix no longer than the left part of an append is decided on that
left part alone: the drop hypothesis says `p` is exhausted by `l`. -/
theorem strStartsWith_append_of_le (l r p : String)
    (hp : (p.data.take l.data.length).isPrefixOf l.data = true)
    (hd : p.data.drop l.data.length = []) :
    strStartsWith (l ++ r) p = true := by
  simp only [strStartsWith, String.data_append]
  rw [isPrefixOf_append_split, hp, hd]
  simp [List.isPrefixOf]

/-- A string whose first characters disagree with the left part of an
append is not a prefix of it, whatever follows. -/
theorem strStartsWith_append_of_take_ne (l r p : String)
    (hp : (p.data.take l.data.length).isPrefixOf l.data = false) :
    strStartsWith (l ++ r) p = false := by
  simp only [strStartsWith, String.data_append]
  rw [isPrefixOf_append_split, hp]
  simp

/-! ## Claims about the Query Gateway -/

/-- C3 counterexample: `_run` performs no validation of its own.  Called
directly with the multi-statement injection `"SELECT 1; DROP TABLE x"` —
a query the validator rejects — it passes the query to the backend and
returns a success report, so the gateway's execute operation does not
re-apply the validation rules inside the same call. -/
theorem run_executes_unvalidated_query :
    validate_query_safety "SELECT 1; DROP TABLE x" = .error (.forbiddenKeyword "DROP") ∧
    strStartsWith
      (SQLiteDatabaseTool_run (fun _ => true)
        (fun q => if q = "SELECT 1; DROP TABLE x" then .ok [[("a", "1")]]
                  else .sqliteError "no such table")
        "/project" "SELECT 1; DROP TABLE x" "data/customer_support_tickets.db")
      "Query executed successfully" = true := by
  exact ⟨by decide, by decide⟩

/-- C3 amended: validation is enforced at the tool's input-schema
boundary, not inside `_run`.  Through `toolCall` (pydantic parsing of
`SQLiteQueryInput`, then `_run`) a query the validator rejects is never
executed: the call returns the validation error and its outcome is
independent of the backend. -/
theorem tool_boundary_enforces_validation (fs : String → Bool) (exec : String → ExecOutcome)
    (pr q dp : String) (e : ValidationError)
    (h : validate_query_safety q = .error e) :
    toolCall fs exec pr q dp = .error e ∧
      ∀ exec2, toolCall fs exec pr q dp = toolCall fs exec2 pr q dp :=
  ⟨by simp [toolCall, h], fun exec2 => by simp [toolCall, h]⟩

/-- Witness for the amended C3 at `"DROP TABLE x"`. -/
theorem tool_boundary_enforces_validation_witness :
    (validate_query_safety "DROP TABLE x" = .error .notReadOnly) ∧
    (toolCall (fun _ => true) (fun _ => .ok [[("a", "1")]])
        "/project" "DROP TABLE x" "db" = .error .notReadOnly ∧
      ∀ exec2, toolCall (fun _ => true) (fun _ => .ok [[("a", "1")]])
          "/project" "DROP TABLE x" "db" =
        toolCall (fun _ => true) exec2 "/project" "DROP TABLE x" "db") :=
  ⟨by decide,
    tool_boundary_enforces_validation (fun _ => true) (fun _ => .ok [[("a", "1")]])
      "/project" "DROP TABLE x" "db" .notReadOnly (by decide)⟩

/-- C6: when the resolved store path does not exist, the gateway returns
a report beginning with `"Error: Database file not found"`, and the
backend is never consulted: the result is the same for every `exec`. -/
theorem store_not_found_reported (fs : String → Bool) (exec : String → ExecOutcome)
    (pr q dp : String)
    (h : fs (pr ++ ("/" ++ dp)) = false) :
    strStartsWith (SQLiteDatabaseTool_run fs exec pr q dp)
        "Error: Database file not found" = true ∧
    ∀ exec2, SQLiteDatabaseTool_run fs exec pr q dp =
      SQLiteDatabaseTool_run fs exec2 pr q dp := by
  have hrun : ∀ (e2 : String → ExecOutcome), SQLiteDatabaseTool_run fs e2 pr q dp =
      "Error: Database file not found at " ++ (pr ++ ("/" ++ dp)) := by
    intro e2; simp [SQLiteDatabaseTool_run, h]
  refine ⟨?_, fun exec2 => (hrun exec).trans (hrun exec2).symm⟩
  rw [hrun exec]
  exact strStartsWith_append_of_le _ _ _ (by decide) (by decide)

/-- Witness for C6 with an always-empty file system. -/
theorem store_not_found_reported_witness :
    ((fun _ : String => false) ("/project" ++ ("/" ++ "data/none.db")) = false) ∧
    (strStartsWith
        (SQLiteDatabaseTool_run (fun _ => false) (fun _ => .ok [[("a", "1")]])
          "/project" "SELECT 1" "data/none.db")
        "Error: Database file not found" = true ∧
      ∀ exec2, SQLiteDatabaseTool_run (fun _ => false) (fun _ => .ok [[("a", "1")]])
          "/project" "SELECT 1" "data/none.db" =
        SQLiteDatabaseTool_run (fun _ => false) exec2 "/project" "SELECT 1" "data/none.db") :=
  ⟨rfl, store_not_found_reported (fun _ => false) (fun _ => .ok [[("a", "1")]])
    "/project" "SELECT 1" "data/none.db" rfl⟩

/-- C8: a value longer than 100 characters is rendered as its first 97
characters followed by the 3-character marker `"..."`, for exactly 100
visible characters. -/
theorem long_value_truncated (s : String) (h : 100 < s.length) :
    display_value s = String.mk (s.data.take 97) ++ "..." ∧
    ("..." : String).length = 3 ∧
    (display_value s).length = 100 := by
  have hd : display_value s = String.mk (s.data.take 97) ++ "..." := by
    simp [display_value, h]
  refine ⟨hd, rfl, ?_⟩
  rw [hd]
  have h' : 97 ≤ s.data.length := by
    have hdl : s.length = s.data.length := rfl
    omega
  show (String.mk (s.data.take 97) ++ "...").data.length = 100
  rw [String.data_append]
  simp [List.length_append, List.length_take]
  omega

set_option maxRecDepth 4000 in
/-- Witness for C8 on a 150-character value. -/
theorem long_value_truncated_witness :
    (100 < (String.mk (List.replicate 150 'a')).length) ∧
    (display_value (String.mk (List.replicate 150 'a')) =
        String.mk ((String.mk (List.replicate 150 'a')).data.take 97) ++ "..." ∧
      ("..." : String).length = 3 ∧
      (display_value (String.mk (List.replicate 150 'a'))).length = 100) :=
  ⟨by decide, long_value_truncated (String.mk (List.replicate 150 'a')) (by decide)⟩

/-- C7: on a result set of more than 20 rows the report consists of the
header stating the *full* row count, the row blocks of exactly the first
20 rows (`(results.take 20).length = 20`), and the trailing
`moreRowsLine` stating the number of remaining rows. -/
theorem sampling_cap_report (fs : String → Bool) (exec : String → ExecOutcome)
    (pr q dp : String) (r0 : Row) (rest : List Row)
    (hfs : fs (pr ++ ("/" ++ dp)) = true)
    (hexec : exec q = .ok (r0 :: rest))
    (hlen : 20 < (r0 :: rest).length) :
    SQLiteDatabaseTool_run fs exec pr q dp =
      successHeader (r0 :: rest).length (r0.map Prod.fst) 20 ++
        (formatRows 1 ((r0 :: rest).take 20) ++
          moreRowsLine ((r0 :: rest).length - 20)) ∧
    ((r0 :: rest).take 20).length = 20 := by
  have hmin : min 20 (r0 :: rest).length = 20 := Nat.min_eq_left (Nat.le_of_lt hlen)
  constructor
  · simp only [SQLiteDatabaseTool_run, hexec, hfs, if_true]
    rw [hmin, if_pos hlen]
  · rw [List.length_take]
    exact hmin

/-- Witness for C7 on a 25-row result set (20 blocks plus "5 more rows"). -/
theorem sampling_cap_report_witness :
    ((fun _ : String => true) ("/project" ++ ("/" ++ "db")) = true) ∧
    ((fun _ : String => ExecOutcome.ok (([("c", "v")] : Row) :: List.replicate 24 [("c", "v")]))
        "SELECT 1" = .ok (([("c", "v")] : Row) :: List.replicate 24 [("c", "v")])) ∧
    (20 < (([("c", "v")] : Row) :: List.replicate 24 [("c", "v")]).length) ∧
    (SQLiteDatabaseTool_run (fun _ => true)
        (fun _ => ExecOutcome.ok (([("c", "v")] : Row) :: List.replicate 24 [("c", "v")]))
        "/project" "SELECT 1" "db" =
      successHeader (([("c", "v")] : Row) :: List.replicate 24 [("c", "v")]).length
          (([("c", "v")] : Row).map Prod.fst) 20 ++
        (formatRows 1 ((([("c", "v")] : Row) :: List.replicate 24 [("c", "v")]).take 20) ++
          moreRowsLine ((([("c", "v")] : Row) :: List.replicate 24 [("c", "v")]).length - 20)) ∧
      ((([("c", "v")] : Row) :: List.replicate 24 [("c", "v")]).take 20).length = 20) :=
  ⟨rfl, rfl, by decide,
    sampling_cap_report (fun _ => true)
      (fun _ => ExecOutcome.ok (([("c", "v")] : Row) :: List.replicate 24 [("c", "v")]))
      "/project" "SELECT 1" "db" [("c", "v")] (List.replicate 24 [("c", "v")])
      rfl rfl (by decide)⟩

/-- The success header for a single-row result, followed by anything,
begins with `"Query executed successfully. Retrieved 1 row(s)."`. -/
theorem startsWith_retrieved_one (cols : List String) (X : String) :
    strStartsWith (successHeader 1 cols 1 ++ X)
      "Query executed successfully. Retrieved 1 row(s)." = true := by
  have ht : toString (1 : Nat) = "1" := rfl
  simp only [strStartsWith, successHeader, ht, String.data_append, List.append_assoc]
  rw [isPrefixOf_append_split, Bool.and_eq_true]
  constructor
  · decide
  · rw [show ("Query executed successfully. Retrieved 1 row(s).".data.drop
        ("Query executed successfully. Retrieved ".data.length)) = "1 row(s).".data from by decide]
    rw [isPrefixOf_append_split, Bool.and_eq_true]
    constructor
    · decide
    · rw [show ("1 row(s).".data.drop ("1".data.length)) = " row(s).".data from by decide]
      rw [isPrefixOf_append_split, Bool.and_eq_true]
      constructor
      · decide
      · rw [show (" row(s).".data.drop (" row(s).\n\n".data.length)) = ([] : List Char)
            from by decide]
        simp [List.isPrefixOf]

/-- C9: with the store present, a query yielding zero rows produces the
"no results" report, and a query yielding exactly one row produces the
report made of the header (which begins with `"Query executed
successfully. Retrieved 1 row(s)."` and lists the first row's column
names) and exactly one row block. -/
theorem zero_and_one_row_reports (fs : String → Bool) (exec : String → ExecOutcome)
    (pr q dp : String) (r0 : Row)
    (hfs : fs (pr ++ ("/" ++ dp)) = true) :
    (exec q = .ok [] →
      SQLiteDatabaseTool_run fs exec pr q dp =
        "Query executed successfully but returned no results.") ∧
    (exec q = .ok [r0] →
      SQLiteDatabaseTool_run fs exec pr q dp =
        successHeader 1 (r0.map Prod.fst) 1 ++ (formatRows 1 [r0] ++ "") ∧
      strStartsWith (SQLiteDatabaseTool_run fs exec pr q dp)
        "Query executed successfully. Retrieved 1 row(s)." = true) := by
  constructor
  · intro h
    simp only [SQLiteDatabaseTool_run, h, hfs, if_true]
  · intro h
    have hrun : SQLiteDatabaseTool_run fs exec pr q dp =
        successHeader 1 (r0.map Prod.fst) 1 ++ (formatRows 1 [r0] ++ "") := by
      simp only [SQLiteDatabaseTool_run, h, hfs, if_true]
      rfl
    refine ⟨hrun, ?_⟩
    rw [hrun]
    exact startsWith_retrieved_one (r0.map Prod.fst) (formatRows 1 [r0] ++ "")

/-- Witness for C9: one call on an empty result set, one on a singleton. -/
theorem zero_and_one_row_reports_witness :
    (SQLiteDatabaseTool_run (fun _ => true) (fun _ => .ok []) "/p" "SELECT 1" "db" =
      "Query executed successfully but returned no results.") ∧
    (SQLiteDatabaseTool_run (fun _ => true) (fun _ => .ok [[("a", "1")]])
        "/p" "SELECT 1" "db" =
      successHeader 1 (([("a", "1")] : Row).map Prod.fst) 1 ++
        (formatRows 1 [[("a", "1")]] ++ "") ∧
      strStartsWith (SQLiteDatabaseTool_run (fun _ => true) (fun _ => .ok [[("a", "1")]])
          "/p" "SELECT 1" "db")
        "Query executed successfully. Retrieved 1 row(s)." = true) :=
  ⟨(zero_and_one_row_reports (fun _ => true) (fun _ => .ok [])
      "/p" "SELECT 1" "db" [] rfl).1 rfl,
   (zero_and_one_row_reports (fun _ => true) (fun _ => .ok [[("a", "1")]])
      "/p" "SELECT 1" "db" [("a", "1")] rfl).2 rfl⟩

/-- C4 counterexample: the generic failure arm returns text beginning
with `"Unexpected error executing query: "`, which does *not* begin with
the claimed prefix `"Unexpected error: "` (nor with the other two), so
the three claimed prefixes do not cover all failure reports. -/
theorem unexpected_error_prefix_counterexample :
    SQLiteDatabaseTool_run (fun _ => true) (fun _ => .unexpectedError "boom")
        "/project" "SELECT 1" "db" =
      "Unexpected error executing query: boom" ∧
    strStartsWith "Unexpected error executing query: boom" "Error: " = false ∧
    strStartsWith "Unexpected error executing query: boom" "SQLite error: " = false ∧
    strStartsWith "Unexpected error executing query: boom" "Unexpected error: " = false :=
  ⟨by decide, by decide, by decide, by decide⟩

/-- C4 amended: the gateway is a total function into strings (it never
raises), and every report is classified by its prefix: success reports
begin with `"Query executed successfully"` and with none of the failure
prefixes, and every failure report begins with `"Error: "`,
`"SQLite error: "`, or `"Unexpected error executing query: "` and not
with the success prefix — so success and failure are distinguishable by
prefix alone. -/
theorem gateway_reports_classified (fs : String → Bool) (exec : String → ExecOutcome)
    (pr q dp : String) :
    (strStartsWith (SQLiteDatabaseTool_run fs exec pr q dp)
        "Query executed successfully" = true ∧
      strStartsWith (SQLiteDatabaseTool_run fs exec pr q dp) "Error: " = false ∧
      strStartsWith (SQLiteDatabaseTool_run fs exec pr q dp) "SQLite error: " = false ∧
      strStartsWith (SQLiteDatabaseTool_run fs exec pr q dp)
        "Unexpected error executing query: " = false) ∨
    (strStartsWith (SQLiteDatabaseTool_run fs exec pr q dp)
        "Query executed successfully" = false ∧
      (strStartsWith (SQLiteDatabaseTool_run fs exec pr q dp) "Error: " = true ∨
        strStartsWith (SQLiteDatabaseTool_run fs exec pr q dp) "SQLite error: " = true ∨
        strStartsWith (SQLiteDatabaseTool_run fs exec pr q dp)
          "Unexpected error executing query: " = true)) := by
  by_cases hfs : fs (pr ++ ("/" ++ dp)) = true
  · cases hex : exec q with
    | ok rows =>
      cases rows with
      | nil =>
        have hrun : SQLiteDatabaseTool_run fs exec pr q dp =
            "Query executed successfully but returned no results." := by
          simp only [SQLiteDatabaseTool_run, hex, hfs, if_true]
        rw [hrun]
        exact Or.inl ⟨by decide, by decide, by decide, by decide⟩
      | cons r0 rest =>
        have hrun : SQLiteDatabaseTool_run fs exec pr q dp =
            "Query executed successfully. Retrieved " ++
              (toString (r0 :: rest).length ++ (" row(s).\n\n" ++
                ("Columns: " ++ (String.intercalate ", " (r0.map Prod.fst) ++ ("\n\n" ++
                  ("Sample results (showing first " ++
                    (toString (min 20 (r0 :: rest).length) ++ (" rows):\n" ++
                      (formatRows 1 ((r0 :: rest).take (min 20 (r0 :: rest).length)) ++
                        (if (r0 :: rest).length > min 20 (r0 :: rest).length then
                          moreRowsLine ((r0 :: rest).length - min 20 (r0 :: rest).length)
                        else "")))))))))) := by
          simp only [SQLiteDatabaseTool_run, hex, hfs, if_true, successHeader,
            String.append_assoc]
        rw [hrun]
        exact Or.inl
          ⟨strStartsWith_append_of_le _ _ _ (by decide) (by decide),
           strStartsWith_append_of_take_ne _ _ _ (by decide),
           strStartsWith_append_of_take_ne _ _ _ (by decide),
           strStartsWith_append_of_take_ne _ _ _ (by decide)⟩
    | sqliteError e =>
      have hrun : SQLiteDatabaseTool_run fs exec pr q dp = "SQLite error: " ++ e := by
        simp only [SQLiteDatabaseTool_run, hex, hfs, if_true]
      rw [hrun]
      exact Or.inr
        ⟨strStartsWith_append_of_take_ne _ _ _ (by decide),
         Or.inr (Or.inl (strStartsWith_append_of_le _ _ _ (by decide) (by decide)))⟩
    | unexpectedError e =>
      have hrun : SQLiteDatabaseTool_run fs exec pr q dp =
          "Unexpected error executing query: " ++ e := by
        simp only [SQLiteDatabaseTool_run, hex, hfs, if_true]
      rw [hrun]
      exact Or.inr
        ⟨strStartsWith_append_of_take_ne _ _ _ (by decide),
         Or.inr (Or.inr (strStartsWith_append_of_le _ _ _ (by decide) (by decide)))⟩
  · have hfs' : fs (pr ++ ("/" ++ dp)) = false := by
      cases hv : fs (pr ++ ("/" ++ dp)) with
      | true => exact absurd hv hfs
      | false => rfl
    have hrun : SQLiteDatabaseTool_run fs exec pr q dp =
        "Error: Database file not found at " ++ (pr ++ ("/" ++ dp)) := by
      simp [SQLiteDatabaseTool_run, hfs']
    rw [hrun]
    exact Or.inr
      ⟨strStartsWith_append_of_take_ne _ _ _ (by decide),
       Or.inl (strStartsWith_append_of_le _ _ _ (by decide) (by decide))⟩

/-! ## Claim about the pipeline's inspect stage -/

/-- C10: run against a catalog with no table named
`customer_support_tickets`, the inspect stage fails with the
table-not-found error and the pipeline from the `Loaded` state returns
that error; the delegate is never invoked — the outcome is the same for
every delegate. -/
theorem missing_table_is_fatal_before_delegate (catalog : List (String × String))
    (delegate : FlowState → String) (s : FlowState)
    (h : ∀ t ∈ catalog, t.1 ≠ table_name) :
    inspect_database_structure catalog s = .error .tableNotFound ∧
    pipelineFromLoaded catalog delegate s = .error .tableNotFound ∧
    ∀ delegate2, pipelineFromLoaded catalog delegate s =
      pipelineFromLoaded catalog delegate2 s := by
  have hfind : catalog.find? (fun t => t.1 == table_name) = none := by
    rw [List.find?_eq_none]
    intro t ht
    simpa using h t ht
  have hins : inspect_database_structure catalog s = .error .tableNotFound := by
    simp [inspect_database_structure, sqlite_master_ddl, hfind]
  exact ⟨hins, by simp [pipelineFromLoaded, hins],
    fun d2 => by simp [pipelineFromLoaded, hins]⟩

/-- Witness for C10 on a catalog holding only a table named `other`. -/
theorem missing_table_is_fatal_before_delegate_witness :
    (∀ t ∈ [("other", "CREATE TABLE other (id)")], t.1 ≠ table_name) ∧
    (inspect_database_structure [("other", "CREATE TABLE other (id)")] ⟨"", "", ""⟩ =
        .error .tableNotFound ∧
      pipelineFromLoaded [("other", "CREATE TABLE other (id)")] (fun _ => "answer")
          ⟨"", "", ""⟩ = .error .tableNotFound ∧
      ∀ delegate2,
        pipelineFromLoaded [("other", "CREATE TABLE other (id)")] (fun _ => "answer")
            ⟨"", "", ""⟩ =
          pipelineFromLoaded [("other", "CREATE TABLE other (id)")] delegate2 ⟨"", "", ""⟩) :=
  ⟨by decide,
    missing_table_is_fatal_before_delegate [("other", "CREATE TABLE other (id)")]
      (fun _ => "answer") ⟨"", "", ""⟩ (by decide)⟩
